import Mathlib

set_option autoImplicit false

/-!
Shallow embedding of the `logr` rotating log writer (taichidb/logr) and
verification of its specification claims.

The repository's implementation lives in `logr.go`, which carries two
iterations of the package (the second adds `JSONFormat`, a caller-supplied
`Output` writer and an `ErrorHandler`); a third, earlier iteration is the
unnamed source file.  Definitions below are translated from `logr.go`;
where the two iterations of a function differ in a way a claim depends on,
both are embedded (suffixes `V1` for the first iteration, `V2` for the
second).

Modelling conventions:
- machine integers (`int64`, `int`, `time.Duration`) become `Int`;
- file contents are byte lists, the directory is an association list from
  path to content; `os.Stat`/`os.OpenFile` on this abstract filesystem
  fail only in the ways the claims exercise, supplied through explicit
  failure oracles;
- the gzip codec (`compress/gzip`, external to this repository) is a
  parameter `gz : List Byte → List Byte`;
- buffered writes are modelled by their size accounting (the bytes
  accepted by the `bufio.Writer`); flushing moves no bytes in the model
  because file content is only inspected around rotation, where the code
  flushes first;
- wall-clock timestamps are passed in as preformatted strings.
-/

namespace Logr

/-- Log severity, `logr.go` lines 16-25: DEBUG < INFO < WARN < ERROR < FATAL. -/
inductive LogLevel where
  | DEBUG
  | INFO
  | WARN
  | ERROR
  | FATAL
deriving Repr, DecidableEq

/-- Numeric value of a level, as in the Go `iota` enumeration. -/
def LogLevel.toNat : LogLevel → Nat
  | .DEBUG => 0
  | .INFO => 1
  | .WARN => 2
  | .ERROR => 3
  | .FATAL => 4

/-- Logger configuration (`Config`), second iteration, `logr.go` lines 546-559.
The first iteration's `Config` is the subset without `jsonFormat`,
`hasOutput` (whether `Output != nil`) and the error handler; functions
translated from the first iteration simply ignore those fields.  The
`ErrorHandler` callback is not carried in the structure: reported errors
appear in the effect records below instead.  Durations are nanoseconds. -/
structure Config where
  logDir : String
  fileName : String
  maxSize : Int
  maxAge : Int
  maxBackups : Int
  level : LogLevel
  enableStdout : Bool
  syncInterval : Int
  compress : Bool
  jsonFormat : Bool := false
  hasOutput : Bool := false
deriving Repr, DecidableEq

/-- `DefaultConfig`, `logr.go` lines 59-71 (second iteration lines 562-577
adds the three extra zero-valued fields). -/
def DefaultConfig : Config :=
  { logDir := "./logs"
    fileName := "myapp"
    maxSize := 100 * 1024 * 1024
    maxAge := 7 * 24 * 3600 * 1000000000
    maxBackups := 10
    level := .INFO
    enableStdout := false
    syncInterval := 100 * 1000000
    compress := true
    jsonFormat := false
    hasOutput := false }

/-- Bytes of a file. -/
abbrev Byte := Nat

/-- Abstract log directory: association list from path to file content.
`fsSet` keeps at most one entry per path. -/
abbrev FS := List (String × List Byte)

/-- Look a path up in the directory (`os.Stat` / `os.Open` succeed iff this
is `some`). -/
def fsLookup : FS → String → Option (List Byte)
  | [], _ => none
  | (q, c) :: rest, p => if q = p then some c else fsLookup rest p

/-- Delete a path (`os.Remove`). -/
def fsRemove : FS → String → FS
  | [], _ => []
  | (q, c) :: rest, p => if q = p then fsRemove rest p else (q, c) :: fsRemove rest p

/-- Create or replace the file at a path (`os.Create`, or `os.OpenFile` with
`O_CREATE` on a missing path). -/
def fsSet (fs : FS) (p : String) (c : List Byte) : FS :=
  (p, c) :: fsRemove fs p

/-- Size in bytes of the file at a path, 0 when absent. -/
def fsSize (fs : FS) (p : String) : Int :=
  match fsLookup fs p with
  | some c => (c.length : Int)
  | none => 0

/-- In-memory writer state the claims track: `currentSize` plus the abstract
directory.  The `*os.File` handle and the `bufio.Writer` are not reified;
their observable effects are carried by the effect records below. -/
structure LoggerState where
  currentSize : Int
  fs : FS
deriving Repr, DecidableEq

/-- `getCurrentLogPath`, `logr.go` lines 143-145:
`filepath.Join(LogDir, FileName + ".log")`. -/
def getCurrentLogPath (cfg : Config) : String :=
  cfg.logDir ++ "/" ++ cfg.fileName ++ ".log"

/-- `getBackupLogPath`, `logr.go` lines 148-154, with the wall-clock
timestamp already formatted (`20060102_150405` layout). -/
def getBackupLogPath (cfg : Config) (timeStr : String) : String :=
  if cfg.compress then
    cfg.logDir ++ "/" ++ cfg.fileName ++ "_" ++ timeStr ++ ".log.gz"
  else
    cfg.logDir ++ "/" ++ cfg.fileName ++ "_" ++ timeStr ++ ".log"

/-- `openLogFile`, `logr.go` lines 118-140: stat the canonical path and seed
`currentSize` from the existing file's size (0 when absent), then open the
file in append mode with `O_CREATE`, which creates an empty file when the
path is missing.  Stat errors other than not-exist and open errors are
OS-level failures that do not arise on the abstract filesystem; where a
claim depends on them (`NewLogger`) they are supplied by an oracle. -/
def openLogFile (cfg : Config) (fs : FS) : LoggerState :=
  match fsLookup fs (getCurrentLogPath cfg) with
  | some c => { currentSize := (c.length : Int), fs := fs }
  | none => { currentSize := 0, fs := fsSet fs (getCurrentLogPath cfg) [] }

/-- `shouldRotate`, `logr.go` lines 223-225 (identical at lines 749-751):
`MaxSize > 0 && currentSize + int64(messageSize) > MaxSize`. -/
def shouldRotate (cfg : Config) (currentSize : Int) (messageSize : Nat) : Bool :=
  decide (cfg.maxSize > 0) && decide (currentSize + (messageSize : Int) > cfg.maxSize)

/-- Failure oracle for the OS calls made during a rotation.
`compressFails` stands for a failing `io.Copy` inside `compressFile`
(opening a missing source file fails unconditionally); `renameFails` and
`removeFails` fail the corresponding `os` calls. -/
structure RotOracle where
  compressFails : Bool
  renameFails : Bool
  removeFails : Bool
deriving Repr, DecidableEq

/-- `compressFile`, `logr.go` lines 157-179: stream the source file through
a gzip writer into the destination file.  The gzip encoder belongs to Go's
`compress/gzip`, external to this repository, so it is a parameter `gz`.
A real failed copy can leave a partially written destination file behind;
the model leaves the filesystem unchanged on failure (the failure is
attributed to `os.Open`/`io.Copy` before useful output), which no claim
under verification depends on. -/
def compressFile (gz : List Byte → List Byte) (copyFails : Bool) (fs : FS)
    (srcPath dstPath : String) : Except String FS :=
  match fsLookup fs srcPath with
  | none => .error "failed to open source file for compression"
  | some c =>
    if copyFails then .error "failed to copy file content to gzip writer"
    else .ok (fsSet fs dstPath (gz c))

/-- Result of `rotateFile`: the state after the rotation (including the
recovery paths) and the error it returns, if any. -/
structure RotResult where
  st : LoggerState
  err : Option String
deriving Repr, DecidableEq

/-- `rotateFile`, `logr.go` lines 182-220.  Steps: flush the buffered
writer and close the file (warnings only; on the abstract filesystem the
file content already includes every flushed byte, so these steps move no
bytes), then either compress the closed active file to the backup path and
remove the original (a failed remove is only a warning), or rename it to
the backup path; on a compress or rename failure reopen the original file
best-effort and return the error.  Finally reopen the canonical path via
`openLogFile`, which reseeds `currentSize`. -/
def rotateFile (cfg : Config) (gz : List Byte → List Byte) (orc : RotOracle)
    (timeStr : String) (fs : FS) : RotResult :=
  let currentPath := getCurrentLogPath cfg
  if cfg.compress then
    let backupPath := getBackupLogPath cfg timeStr
    match compressFile gz orc.compressFails fs currentPath backupPath with
    | .error _ =>
      { st := openLogFile cfg fs, err := some "failed to compress log file" }
    | .ok fs1 =>
      let fs2 := if orc.removeFails then fs1 else fsRemove fs1 currentPath
      { st := openLogFile cfg fs2, err := none }
  else
    let backupPath := getBackupLogPath cfg timeStr
    match fsLookup fs currentPath, orc.renameFails with
    | some c, false =>
      let fs1 := fsSet (fsRemove fs currentPath) backupPath c
      { st := openLogFile cfg fs1, err := none }
    | _, _ =>
      { st := openLogFile cfg fs, err := some "failed to rename log file" }

/-- Outcome of a single `Write`/`WriteString` call on an underlying writer:
bytes accepted and the error, if any (Go returns a non-nil error on every
short write). -/
structure WriteOutcome where
  n : Nat
  err : Option String
deriving Repr, DecidableEq

/-- Observable effects of one `writeLog` call.  `rotated` means
`rotateFile` was invoked; `sizePreWrite` is the value of `currentSize` at
the write step (after a successful rotation reseeded it); `written` means
the record was fully accepted by the primary (file) writer;
`primaryAccepted` is the byte count the primary writer accepted;
`secondaryAttempted` means the secondary sink (stdout or the caller's
writer) was handed the record; `reported` collects the diagnostics sent to
stderr or the error handler. -/
structure WriteEffect where
  rotated : Bool
  rotateErr : Option String
  sizePreWrite : Int
  written : Bool
  primaryAccepted : Nat
  secondaryAttempted : Bool
  reported : List String
  st : LoggerState
deriving Repr, DecidableEq

/-- `writeLog`, first iteration, `logr.go` lines 228-263.  The formatted
record bytes (timestamp, level tag, message, newline) are the `record`
parameter; formatting itself is wall-clock string work outside the model.
Steps: drop the record when its level is below the configured minimum;
rotate first when `shouldRotate`; on rotation failure report and return
without writing; write the record to the buffered writer (`prim` is that
call's outcome); on a write error report and return leaving `currentSize`
unchanged; on success add the accepted byte count to `currentSize` and, if
`EnableStdout`, print the record to stdout (any stdout failure is invisible
to this code: `fmt.Print`'s result is discarded). -/
def writeLogV1 (cfg : Config) (gz : List Byte → List Byte) (orc : RotOracle)
    (timeStr : String) (st : LoggerState) (level : LogLevel)
    (record : List Byte) (prim : WriteOutcome) : WriteEffect :=
  if level.toNat < cfg.level.toNat then
    { rotated := false, rotateErr := none, sizePreWrite := st.currentSize,
      written := false, primaryAccepted := 0, secondaryAttempted := false,
      reported := [], st := st }
  else if shouldRotate cfg st.currentSize record.length then
    let r := rotateFile cfg gz orc timeStr st.fs
    match r.err with
    | some e =>
      { rotated := true, rotateErr := some e, sizePreWrite := r.st.currentSize,
        written := false, primaryAccepted := 0, secondaryAttempted := false,
        reported := ["log rotation failed: " ++ e], st := r.st }
    | none =>
      match prim.err with
      | some e =>
        { rotated := true, rotateErr := none, sizePreWrite := r.st.currentSize,
          written := false, primaryAccepted := prim.n,
          secondaryAttempted := false,
          reported := ["failed to write to log file: " ++ e], st := r.st }
      | none =>
        { rotated := true, rotateErr := none, sizePreWrite := r.st.currentSize,
          written := true, primaryAccepted := prim.n,
          secondaryAttempted := cfg.enableStdout, reported := [],
          st := { r.st with currentSize := r.st.currentSize + (prim.n : Int) } }
  else
    match prim.err with
    | some e =>
      { rotated := false, rotateErr := none, sizePreWrite := st.currentSize,
        written := false, primaryAccepted := prim.n,
        secondaryAttempted := false,
        reported := ["failed to write to log file: " ++ e], st := st }
    | none =>
      { rotated := false, rotateErr := none, sizePreWrite := st.currentSize,
        written := true, primaryAccepted := prim.n,
        secondaryAttempted := cfg.enableStdout, reported := [],
        st := { st with currentSize := st.currentSize + (prim.n : Int) } }

/-- Whether the second iteration's `openLogFile` (`logr.go` lines 643-652)
appends a secondary sink to the multi-writer: the caller-supplied `Output`
writer when present, else stdout when `EnableStdout`. -/
def secondaryConfigured (cfg : Config) : Bool :=
  cfg.hasOutput || cfg.enableStdout

/-- Semantics of Go's `io.MultiWriter(...).Write` over the two sinks the
logger installs: write the full record to each writer in order (file
writer first), stop at the first error, and turn a short count into
`io.ErrShortWrite`. -/
def multiWrite (len : Nat) (prim : WriteOutcome) (sec : Option WriteOutcome) :
    WriteOutcome :=
  match prim.err with
  | some e => { n := prim.n, err := some e }
  | none =>
    if prim.n < len then { n := prim.n, err := some "short write" }
    else
      match sec with
      | none => { n := len, err := none }
      | some s =>
        match s.err with
        | some e => { n := s.n, err := some e }
        | none =>
          if s.n < len then { n := s.n, err := some "short write" }
          else { n := len, err := none }

/-- Whether the primary writer accepted the whole record (the multi-writer
only moves on to the secondary sink after this). -/
def primaryOk (len : Nat) (prim : WriteOutcome) : Bool :=
  prim.err.isNone && decide (len ≤ prim.n)

/-- The `l.out.Write` step of the second iteration's `writeLog` and its
accounting, `logr.go` lines 792-801: call the multi-writer; on an error
report it and return with `currentSize` untouched; otherwise add the
returned byte count to `currentSize`. -/
def writeStepV2 (cfg : Config) (st : LoggerState) (rotated : Bool)
    (record : List Byte) (prim : WriteOutcome) (sec : WriteOutcome) :
    WriteEffect :=
  let out := multiWrite record.length prim
    (if secondaryConfigured cfg then some sec else none)
  match out.err with
  | some e =>
    { rotated := rotated, rotateErr := none, sizePreWrite := st.currentSize,
      written := primaryOk record.length prim, primaryAccepted := prim.n,
      secondaryAttempted := secondaryConfigured cfg &&
        primaryOk record.length prim,
      reported := ["failed to write to log output: " ++ e], st := st }
  | none =>
    { rotated := rotated, rotateErr := none, sizePreWrite := st.currentSize,
      written := primaryOk record.length prim, primaryAccepted := prim.n,
      secondaryAttempted := secondaryConfigured cfg &&
        primaryOk record.length prim,
      reported := [],
      st := { st with currentSize := st.currentSize + (out.n : Int) } }

/-- `writeLog`, second iteration, `logr.go` lines 754-802.  Identical
level/rotation logic; the write step goes through the multi-writer set up
by `openLogFile` (`sec` is the secondary sink's outcome, consulted only
when one is configured).  On a write error the code reports and returns
before the `currentSize` update; on success it adds the returned count
(the code comments that only the main file's size is tracked). -/
def writeLogV2 (cfg : Config) (gz : List Byte → List Byte) (orc : RotOracle)
    (timeStr : String) (st : LoggerState) (level : LogLevel)
    (record : List Byte) (prim : WriteOutcome) (sec : WriteOutcome) :
    WriteEffect :=
  if level.toNat < cfg.level.toNat then
    { rotated := false, rotateErr := none, sizePreWrite := st.currentSize,
      written := false, primaryAccepted := 0, secondaryAttempted := false,
      reported := [], st := st }
  else if shouldRotate cfg st.currentSize record.length then
    let r := rotateFile cfg gz orc timeStr st.fs
    match r.err with
    | some e =>
      { rotated := true, rotateErr := some e, sizePreWrite := r.st.currentSize,
        written := false, primaryAccepted := 0, secondaryAttempted := false,
        reported := ["log rotation failed: " ++ e], st := r.st }
    | none =>
      writeStepV2 cfg r.st true record prim sec
  else
    writeStepV2 cfg st false record prim sec

/-- A directory entry as `cleanup` sees it (`os.FileInfo`): name,
modification time (nanoseconds since the epoch) and the directory flag. -/
structure FileInfo where
  name : String
  modTime : Int
  isDir : Bool := false
deriving Repr, DecidableEq

/-- Go `strings.HasPrefix`. -/
def goHasPre (s p : String) : Bool :=
  p.data.isPrefixOf s.data

/-- Go `strings.HasSuffix`. -/
def goHasSuffix (s p : String) : Bool :=
  p.data.isSuffixOf s.data

/-- `getLogFiles`, `logr.go` lines 408-435: keep regular entries whose name
is exactly `<FileName>.log`, or starts with `<FileName>_` and ends in
`.log` or `.log.gz`.  (The third iteration spells the same predicate as
two disjuncts; the result is identical.) -/
def getLogFiles (cfg : Config) (entries : List FileInfo) : List FileInfo :=
  entries.filter fun f =>
    !f.isDir &&
      (f.name == cfg.fileName ++ ".log" ||
        (goHasPre f.name (cfg.fileName ++ "_") &&
          (goHasSuffix f.name ".log" || goHasSuffix f.name ".log.gz")))

/-- Insert a file into a list already sorted by modification time,
descending. -/
def insertByModTime (f : FileInfo) : List FileInfo → List FileInfo
  | [] => [f]
  | g :: rest =>
    if g.modTime < f.modTime then f :: g :: rest
    else g :: insertByModTime f rest

/-- The `sort.Slice(files, files[i].ModTime().After(files[j].ModTime()))`
call of `cleanup` (`logr.go` lines 369-371): sort newest first.  Go's
`sort.Slice` leaves the order of equal keys unspecified; this
insertion sort is one admissible outcome, and no claim under verification
depends on the tie order. -/
def sortByModTimeDesc : List FileInfo → List FileInfo
  | [] => []
  | f :: rest => insertByModTime f (sortByModTimeDesc rest)

/-- Pair every element with its position, mirroring `for i, file := range
files`: the index counts every element of the ranged list, skipped or not. -/
def withIndexFrom (i : Nat) : List FileInfo → List (Nat × FileInfo)
  | [] => []
  | f :: rest => (i, f) :: withIndexFrom (i + 1) rest

/-- Whether a name is the canonical active-file name `<FileName>.log`
(the `cleanup` loop skips it, `logr.go` lines 374-377). -/
def isActiveName (cfg : Config) (name : String) : Bool :=
  name == cfg.fileName ++ ".log"

/-- Body of the `cleanup` loop, `logr.go` lines 373-398: a file is deleted
iff it is not the active name and either it is older than `MaxAge`
(`MaxAge > 0 && now - modTime > MaxAge`) or its index in the full sorted
list reaches `MaxBackups` (`MaxBackups > 0 && i >= MaxBackups`). -/
def shouldDeleteAt (cfg : Config) (now : Int) (i : Nat) (f : FileInfo) : Bool :=
  !isActiveName cfg f.name &&
    ((decide (cfg.maxAge > 0) && decide (now - f.modTime > cfg.maxAge)) ||
      (decide (cfg.maxBackups > 0) && decide ((i : Int) ≥ cfg.maxBackups)))

/-- The `(index, file)` pairs the `cleanup` loop marks for deletion. -/
def cleanupMarked (cfg : Config) (now : Int) (files : List FileInfo) :
    List (Nat × FileInfo) :=
  (withIndexFrom 0 files).filter fun p => shouldDeleteAt cfg now p.1 p.2

/-- `cleanup`, `logr.go` lines 355-405, as the list of file names it
removes: list the matching directory entries, sort them newest first, and
delete every marked file (the model assumes each `os.Remove` succeeds; a
failed remove only shrinks this list and is reported per-file). -/
def cleanupDeleted (cfg : Config) (now : Int) (entries : List FileInfo) :
    List String :=
  (cleanupMarked cfg now (sortByModTimeDesc (getLogFiles cfg entries))).map
    fun p => p.2.name

/-- Result of a successful `NewLogger`: the configuration it kept and the
state `openLogFile` produced. -/
structure LoggerInit where
  config : Config
  st : LoggerState
deriving Repr, DecidableEq

/-- `NewLogger`, `logr.go` lines 85-115: substitute `DefaultConfig()` for a
nil configuration, create the log directory, open the initial log file,
and only then start the two background goroutines (scheduling is outside
this model).  `mkdirFails` and `openFails` are the OS-level failures of
`os.MkdirAll` and of `openLogFile`'s stat/open calls; on success the
abstract `openLogFile` describes the resulting state. -/
def NewLogger (config : Option Config) (mkdirFails openFails : Bool)
    (fs : FS) : Except String LoggerInit :=
  let cfg := match config with
    | none => DefaultConfig
    | some c => c
  if mkdirFails then .error "failed to create log directory"
  else if openFails then .error "failed to open log file"
  else .ok { config := cfg, st := openLogFile cfg fs }

/-- Whether a `NewLogger` call produced a logger. -/
def newLoggerOk (r : Except String LoggerInit) : Bool :=
  match r with
  | .ok _ => true
  | .error _ => false

/-- The runtime shape of the combined writer `l.out` in the second
iteration: `openLogFile` (lines 643-652) always installs the result of
`io.MultiWriter(outputs...)`, a `*multiWriter` value that implements
`io.Writer` (and `io.StringWriter`) but not `io.Closer`, and exports no
way to reach the wrapped writers. -/
inductive OutWriter where
  | multi (writerCount : Nat)
deriving Repr, DecidableEq

/-- Whether the installed writer implements `io.Closer` (the type switch in
the internal `close`, `logr.go` lines 959-963). -/
def OutWriter.isCloser : OutWriter → Bool
  | .multi _ => false

/-- The writer `openLogFile` (second iteration) installs: the buffered file
writer, plus the caller's `Output` writer if set, else stdout if
`EnableStdout`. -/
def openOutWriter (cfg : Config) : OutWriter :=
  .multi (if secondaryConfigured cfg then 2 else 1)

/-- The externally visible actions `Close` can take, in order. -/
inductive CloseStep where
  | signalStop
  | lockMutex
  | flushBuffered
  | syncFile
  | closeOut
  | closeFile
  | unlockMutex
deriving Repr, DecidableEq

/-- `Close`, first iteration, `logr.go` lines 438-453: close the stop
channel, lock, flush the buffered writer (result discarded), sync the file
(result discarded) and return the file handle's close error. -/
def closeV1Steps (hasWriter hasFile : Bool) : List CloseStep :=
  [.signalStop, .lockMutex] ++
    (if hasWriter then [.flushBuffered] else []) ++
    (if hasFile then [.syncFile, .closeFile] else []) ++
    [.unlockMutex]

/-- The value the first iteration's `Close` returns: only `l.file.Close()`'s
error; the `Flush` and `Sync` errors are discarded. -/
def closeV1Ret (hasFile : Bool) (flushErr syncErr closeErr : Option String) :
    Option String :=
  if hasFile then closeErr else none

/-- `Close` and the internal `close`, second iteration, `logr.go` lines
950-968: close the stop channel, lock, close `l.out` if it implements
`io.Closer`, and close the file handle.  No flush of the buffered writer
and no sync appears in this path. -/
def closeV2Steps (out : OutWriter) (hasFile : Bool) : List CloseStep :=
  [.signalStop, .lockMutex] ++
    (if out.isCloser then [.closeOut] else []) ++
    (if hasFile then [.closeFile] else []) ++
    [.unlockMutex]

/-- Retention marking as the specification words it ("for each remaining
file at position i, 0-based, among non-active files"): the active name is
dropped before the files are indexed, so it consumes no position in the
MaxBackups count.  This definition follows the spec's words only, to be
compared with `cleanupDeleted`, which is translated from the code. -/
def cleanupDeletedSpecNonActive (cfg : Config) (now : Int)
    (entries : List FileInfo) : List String :=
  let files := sortByModTimeDesc (getLogFiles cfg entries)
  let nonActive := files.filter fun f => !isActiveName cfg f.name
  ((withIndexFrom 0 nonActive).filter fun p =>
      (decide (cfg.maxAge > 0) && decide (now - p.2.modTime > cfg.maxAge)) ||
        (decide (cfg.maxBackups > 0) &&
          decide ((p.1 : Int) ≥ cfg.maxBackups))).map
    fun p => p.2.name

/-! Concrete fixtures used by the counterexamples and witnesses below. -/

/-- Identity stand-in for the gzip encoder in runs where no archive content
is inspected. -/
def gzId : List Byte → List Byte := fun l => l

/-- Rotation oracle on which every OS call succeeds. -/
def okOracle : RotOracle := ⟨false, false, false⟩

/-- Small configuration triggering rotation after 2 bytes. -/
def c1cfg : Config :=
  { logDir := "./logs", fileName := "app", maxSize := 2, maxAge := 0,
    maxBackups := 0, level := .INFO, enableStdout := false,
    syncInterval := 0, compress := false }

/-- Fresh state with an empty directory. -/
def c1st : LoggerState := { currentSize := 0, fs := [] }

/-- A 3-byte record. -/
def c1rec : List Byte := [10, 11, 12]

/-- Retention configuration: two backups allowed, no age limit. -/
def c3cfg : Config :=
  { logDir := "./logs", fileName := "app", maxSize := 100, maxAge := 0,
    maxBackups := 2, level := .INFO, enableStdout := false,
    syncInterval := 0, compress := false }

/-- Directory with the active file (newest) and two backups: the active
file occupies position 0 of the newest-first order. -/
def c3entries : List FileInfo :=
  [{ name := "app.log", modTime := 10 },
   { name := "app_20240101_000001.log", modTime := 9 },
   { name := "app_20240101_000000.log", modTime := 8 }]

/-- The oldest backup of `c3entries`, at full position 2 of the
newest-first order. -/
def c3oldest : FileInfo :=
  { name := "app_20240101_000000.log", modTime := 8, isDir := false }

/-- Configuration with a caller-supplied secondary output writer. -/
def c4cfg : Config :=
  { logDir := "./logs", fileName := "app", maxSize := 1000, maxAge := 0,
    maxBackups := 0, level := .DEBUG, enableStdout := false,
    syncInterval := 0, compress := false, hasOutput := true }

/-- A 5-byte record. -/
def c4rec : List Byte := [1, 2, 3, 4, 5]

/-- Configuration compressing archives, rotating after 10 bytes. -/
def c5cfg : Config :=
  { logDir := "./logs", fileName := "app", maxSize := 10, maxAge := 0,
    maxBackups := 0, level := .INFO, enableStdout := false,
    syncInterval := 0, compress := true }

/-- Content of an oversized active segment. -/
def c5content : List Byte := List.replicate 12 7

/-- State holding the oversized active segment. -/
def c5st : LoggerState :=
  { currentSize := 12, fs := [("./logs/app.log", c5content)] }

/-- Oracle on which the gzip copy fails. -/
def c5orc : RotOracle := ⟨true, false, false⟩

/-- Directory holding a 3-byte active file for a successful rename
rotation. -/
def c7fs : FS := [("./logs/app.log", [1, 2, 3])]

/-- Configuration compressing archives, for the round-trip witness. -/
def c8cfg : Config :=
  { logDir := "./logs", fileName := "app", maxSize := 4, maxAge := 0,
    maxBackups := 0, level := .INFO, enableStdout := false,
    syncInterval := 0, compress := true }

/-- Toy lossless codec standing in for gzip in the round-trip witness. -/
def c8enc : List Byte → List Byte := fun l => 0 :: l

/-- Decoder inverting `c8enc`. -/
def c8dec : List Byte → List Byte := fun l => l.tail

/-- Content of the active file at rotation time. -/
def c8content : List Byte := [3, 1, 4, 1, 5]

/-- Directory holding that active file. -/
def c8fs : FS := [("./logs/app.log", c8content)]

/-- State with 7 bytes already accounted. -/
def c9st : LoggerState := { currentSize := 7, fs := [] }

/-- A 3-byte record. -/
def c9rec : List Byte := [1, 2, 3]

/-! Helper lemmas about the abstract filesystem and rotation. -/

theorem fsLookup_fsRemove_self (fs : FS) (p : String) :
    fsLookup (fsRemove fs p) p = none := by
  induction fs with
  | nil => rfl
  | cons e rest ih =>
    obtain ⟨q, c⟩ := e
    by_cases h : q = p
    · simp [fsRemove, h, ih]
    · simp [fsRemove, fsLookup, h, ih]

theorem fsLookup_fsRemove_ne (fs : FS) (p q : String) (h : p ≠ q) :
    fsLookup (fsRemove fs p) q = fsLookup fs q := by
  induction fs with
  | nil => rfl
  | cons e rest ih =>
    obtain ⟨r, c⟩ := e
    by_cases hr : r = p
    · subst hr
      simp [fsRemove, fsLookup, h, ih]
    · simp [fsRemove, fsLookup, hr, ih]

theorem fsLookup_fsSet_self (fs : FS) (p : String) (c : List Byte) :
    fsLookup (fsSet fs p c) p = some c := by
  simp [fsSet, fsLookup]

theorem fsLookup_fsSet_ne (fs : FS) (p q : String) (c : List Byte)
    (h : p ≠ q) :
    fsLookup (fsSet fs p c) q = fsLookup fs q := by
  simp only [fsSet, fsLookup, fsLookup_fsRemove_ne fs p q h]
  rw [if_neg h]

/-- A backup path is never the canonical active path: it is strictly longer
(by the timestamp and the extra separator and suffix characters). -/
theorem getBackupLogPath_ne_current (cfg : Config) (timeStr : String) :
    getBackupLogPath cfg timeStr ≠ getCurrentLogPath cfg := by
  have h1 : ("/" : String).length = 1 := rfl
  have h2 : ("_" : String).length = 1 := rfl
  have h3 : (".log" : String).length = 4 := rfl
  have h4 : (".log.gz" : String).length = 7 := rfl
  intro h
  have hlen := congrArg String.length h
  cases hc : cfg.compress <;>
    simp [getBackupLogPath, getCurrentLogPath, hc, String.length_append,
      h1, h2, h3, h4] at hlen <;>
    omega

/-- After `openLogFile` a file exists at the canonical path: the one that
was already there, or a freshly created empty one. -/
theorem openLogFile_lookup (cfg : Config) (fs : FS) :
    fsLookup (openLogFile cfg fs).fs (getCurrentLogPath cfg)
      = some ((fsLookup fs (getCurrentLogPath cfg)).getD []) := by
  unfold openLogFile
  cases h : fsLookup fs (getCurrentLogPath cfg) with
  | some c => simp [h]
  | none => simp [h, fsLookup_fsSet_self]

/-- `openLogFile` seeds `currentSize` with the size of the file now at the
canonical path. -/
theorem openLogFile_size (cfg : Config) (fs : FS) :
    (openLogFile cfg fs).currentSize
      = fsSize (openLogFile cfg fs).fs (getCurrentLogPath cfg) := by
  unfold fsSize
  rw [openLogFile_lookup]
  unfold openLogFile
  cases h : fsLookup fs (getCurrentLogPath cfg) with
  | some c => simp [h]
  | none => simp [h]

/-- On every failure path `rotateFile` reopens the untouched original
directory state. -/
theorem rotateFile_err_st (cfg : Config) (gz : List Byte → List Byte)
    (orc : RotOracle) (timeStr : String) (fs : FS) (e : String)
    (h : (rotateFile cfg gz orc timeStr fs).err = some e) :
    (rotateFile cfg gz orc timeStr fs).st = openLogFile cfg fs := by
  unfold rotateFile at *
  cases hc : cfg.compress with
  | true =>
    simp only [hc, if_true] at h ⊢
    cases hcf : compressFile gz orc.compressFails fs (getCurrentLogPath cfg)
        (getBackupLogPath cfg timeStr) with
    | error msg => simp [hcf]
    | ok fs1 => simp [hcf] at h
  | false =>
    simp only [hc, Bool.false_eq_true, if_false] at h ⊢
    cases hl : fsLookup fs (getCurrentLogPath cfg) with
    | some c =>
      cases hr : orc.renameFails with
      | true => simp [hl, hr]
      | false => simp [hl, hr] at h
    | none => simp [hl]

/-- C7: after every rotation, successful or through its recovery path,
`currentSize` equals the size of whatever file now exists at the canonical
current path, and equals 0 when the rotation succeeded and left a freshly
created file there (every success with a working `os.Remove` does). -/
theorem claim7_rotate_size_invariant (cfg : Config)
    (gz : List Byte → List Byte) (orc : RotOracle) (timeStr : String)
    (fs : FS) :
    (rotateFile cfg gz orc timeStr fs).st.currentSize
        = fsSize (rotateFile cfg gz orc timeStr fs).st.fs
            (getCurrentLogPath cfg)
    ∧ ((rotateFile cfg gz orc timeStr fs).err = none →
        orc.removeFails = false →
        (rotateFile cfg gz orc timeStr fs).st.currentSize = 0) := by
  unfold rotateFile
  cases hc : cfg.compress with
  | true =>
    simp only [if_true]
    cases hcf : compressFile gz orc.compressFails fs (getCurrentLogPath cfg)
        (getBackupLogPath cfg timeStr) with
    | error msg =>
      exact ⟨openLogFile_size cfg fs, fun h => Option.noConfusion h⟩
    | ok fs1 =>
      cases hr : orc.removeFails with
      | true =>
        exact ⟨openLogFile_size cfg fs1, fun _ h => Bool.noConfusion h⟩
      | false =>
        refine ⟨openLogFile_size cfg (fsRemove fs1 (getCurrentLogPath cfg)), ?_⟩
        intro _ _
        show (openLogFile cfg (fsRemove fs1 (getCurrentLogPath cfg))).currentSize
          = 0
        unfold openLogFile
        rw [fsLookup_fsRemove_self]
  | false =>
    simp only [Bool.false_eq_true, if_false]
    cases hl : fsLookup fs (getCurrentLogPath cfg) with
    | some c =>
      cases hrn : orc.renameFails with
      | true =>
        exact ⟨openLogFile_size cfg fs, fun h => Option.noConfusion h⟩
      | false =>
        refine ⟨openLogFile_size cfg _, ?_⟩
        intro _ _
        show (openLogFile cfg (fsSet (fsRemove fs (getCurrentLogPath cfg))
          (getBackupLogPath cfg timeStr) c)).currentSize = 0
        unfold openLogFile
        rw [fsLookup_fsSet_ne _ _ _ _ (getBackupLogPath_ne_current cfg timeStr),
          fsLookup_fsRemove_self]
    | none =>
      exact ⟨openLogFile_size cfg fs, fun h => Option.noConfusion h⟩

/-- C7 witness: a concrete successful rename rotation ends with
`currentSize = 0`, the size of the freshly created active file. -/
theorem claim7_witness :
    (rotateFile c1cfg gzId okOracle "20240101_000000" c7fs).st.currentSize
      = 0 :=
  (claim7_rotate_size_invariant c1cfg gzId okOracle "20240101_000000" c7fs).2
    (by decide) rfl

/-- C8: a Compress=true rotation on which every OS call succeeds returns no
error, stores the encoder's stream of the active file's bytes at the
backup path, any decoder inverting the encoder recovers exactly those
bytes from the archive, and the plain-text precursor is gone — the
canonical path now holds a freshly created empty active file. -/
theorem claim8_compress_roundtrip (cfg : Config)
    (gz dec : List Byte → List Byte) (orc : RotOracle) (timeStr : String)
    (fs : FS) (content : List Byte)
    (hcomp : cfg.compress = true)
    (hcopy : orc.compressFails = false)
    (hrm : orc.removeFails = false)
    (hsrc : fsLookup fs (getCurrentLogPath cfg) = some content)
    (hdec : ∀ x, dec (gz x) = x) :
    (rotateFile cfg gz orc timeStr fs).err = none ∧
    fsLookup (rotateFile cfg gz orc timeStr fs).st.fs
        (getBackupLogPath cfg timeStr) = some (gz content) ∧
    dec ((fsLookup (rotateFile cfg gz orc timeStr fs).st.fs
        (getBackupLogPath cfg timeStr)).getD []) = content ∧
    fsLookup (rotateFile cfg gz orc timeStr fs).st.fs
        (getCurrentLogPath cfg) = some [] := by
  have hb := getBackupLogPath_ne_current cfg timeStr
  have hcf : compressFile gz orc.compressFails fs (getCurrentLogPath cfg)
      (getBackupLogPath cfg timeStr)
      = .ok (fsSet fs (getBackupLogPath cfg timeStr) (gz content)) := by
    unfold compressFile
    rw [hsrc, hcopy]
    rfl
  have hrot : rotateFile cfg gz orc timeStr fs
      = { st := openLogFile cfg (fsRemove
            (fsSet fs (getBackupLogPath cfg timeStr) (gz content))
            (getCurrentLogPath cfg)),
          err := none } := by
    simp only [rotateFile, hcomp, if_true, hcf, hrm, Bool.false_eq_true,
      if_false]
  have h2 : fsLookup (fsRemove
      (fsSet fs (getBackupLogPath cfg timeStr) (gz content))
      (getCurrentLogPath cfg)) (getCurrentLogPath cfg) = none :=
    fsLookup_fsRemove_self _ _
  have hopen : openLogFile cfg (fsRemove
      (fsSet fs (getBackupLogPath cfg timeStr) (gz content))
      (getCurrentLogPath cfg))
      = { currentSize := 0,
          fs := fsSet (fsRemove
            (fsSet fs (getBackupLogPath cfg timeStr) (gz content))
            (getCurrentLogPath cfg)) (getCurrentLogPath cfg) [] } := by
    unfold openLogFile
    rw [h2]
  have hback : fsLookup (fsSet (fsRemove
      (fsSet fs (getBackupLogPath cfg timeStr) (gz content))
      (getCurrentLogPath cfg)) (getCurrentLogPath cfg) [])
      (getBackupLogPath cfg timeStr) = some (gz content) := by
    rw [fsLookup_fsSet_ne _ _ _ _ (Ne.symm hb),
      fsLookup_fsRemove_ne _ _ _ (Ne.symm hb), fsLookup_fsSet_self]
  refine ⟨?_, ?_, ?_, ?_⟩
  · rw [hrot]
  · rw [hrot, hopen]
    exact hback
  · rw [hrot, hopen, hback]
    exact hdec content
  · rw [hrot, hopen, fsLookup_fsSet_self]

/-- C8 witness: a concrete compressing rotation with a toy lossless codec
round-trips the archived bytes. -/
theorem claim8_witness :
    c8dec ((fsLookup
        (rotateFile c8cfg c8enc okOracle "20240101_000000" c8fs).st.fs
        (getBackupLogPath c8cfg "20240101_000000")).getD []) = c8content := by
  have hcomp : c8cfg.compress = true := by decide
  have hcopy : okOracle.compressFails = false := by decide
  have hrm : okOracle.removeFails = false := by decide
  have hsrc : fsLookup c8fs (getCurrentLogPath c8cfg) = some c8content := by
    decide
  have hdec : ∀ x, c8dec (c8enc x) = x := fun x => rfl
  exact (claim8_compress_roundtrip c8cfg c8enc c8dec okOracle
    "20240101_000000" c8fs c8content hcomp hcopy hrm hsrc hdec).2.2.1

/-- The `rotated` field of `writeStepV2` is the flag it was passed. -/
theorem writeStepV2_rotated (cfg : Config) (st : LoggerState) (rotated : Bool)
    (record : List Byte) (prim sec : WriteOutcome) :
    (writeStepV2 cfg st rotated record prim sec).rotated = rotated := by
  simp only [writeStepV2]
  cases (multiWrite record.length prim
      (if secondaryConfigured cfg then some sec else none)).err <;> rfl

/-- For a record at or above the minimum level, the first iteration's
`writeLog` invokes `rotateFile` exactly when `shouldRotate` holds. -/
theorem writeLogV1_rotated (cfg : Config) (gz : List Byte → List Byte)
    (orc : RotOracle) (timeStr : String) (st : LoggerState)
    (level : LogLevel) (record : List Byte) (prim : WriteOutcome)
    (hnl : ¬ level.toNat < cfg.level.toNat) :
    (writeLogV1 cfg gz orc timeStr st level record prim).rotated
      = shouldRotate cfg st.currentSize record.length := by
  simp only [writeLogV1, if_neg hnl]
  cases hs : shouldRotate cfg st.currentSize record.length with
  | true =>
    cases (rotateFile cfg gz orc timeStr st.fs).err with
    | some e => rfl
    | none => cases prim.err <;> rfl
  | false => cases prim.err <;> rfl

/-- For a record at or above the minimum level, the second iteration's
`writeLog` invokes `rotateFile` exactly when `shouldRotate` holds. -/
theorem writeLogV2_rotated (cfg : Config) (gz : List Byte → List Byte)
    (orc : RotOracle) (timeStr : String) (st : LoggerState)
    (level : LogLevel) (record : List Byte) (prim sec : WriteOutcome)
    (hnl : ¬ level.toNat < cfg.level.toNat) :
    (writeLogV2 cfg gz orc timeStr st level record prim sec).rotated
      = shouldRotate cfg st.currentSize record.length := by
  simp only [writeLogV2, if_neg hnl]
  cases hs : shouldRotate cfg st.currentSize record.length with
  | true =>
    cases (rotateFile cfg gz orc timeStr st.fs).err with
    | some e => rfl
    | none => exact writeStepV2_rotated ..
  | false => exact writeStepV2_rotated ..

/-- C1: for a record of n bytes at or above the configured minimum level,
both iterations of the leveled write path perform a rotation before the
write iff `MaxSize > 0` and `currentSize + n > MaxSize`; in particular no
write triggers a rotation when `MaxSize ≤ 0`. -/
theorem claim1_rotation_iff (cfg : Config) (gz : List Byte → List Byte)
    (orc : RotOracle) (timeStr : String) (st : LoggerState)
    (level : LogLevel) (record : List Byte) (prim sec : WriteOutcome)
    (hlvl : cfg.level.toNat ≤ level.toNat) :
    ((writeLogV1 cfg gz orc timeStr st level record prim).rotated
        = (decide (cfg.maxSize > 0) &&
            decide (st.currentSize + (record.length : Int) > cfg.maxSize)))
    ∧ ((writeLogV2 cfg gz orc timeStr st level record prim sec).rotated
        = (decide (cfg.maxSize > 0) &&
            decide (st.currentSize + (record.length : Int) > cfg.maxSize)))
    ∧ (cfg.maxSize ≤ 0 →
        (writeLogV1 cfg gz orc timeStr st level record prim).rotated = false
        ∧ (writeLogV2 cfg gz orc timeStr st level record prim sec).rotated
            = false) := by
  have hnl : ¬ level.toNat < cfg.level.toNat := Nat.not_lt.mpr hlvl
  have h1 := writeLogV1_rotated cfg gz orc timeStr st level record prim hnl
  have h2 := writeLogV2_rotated cfg gz orc timeStr st level record prim sec hnl
  refine ⟨h1, h2, fun hle => ?_⟩
  have hz : decide (cfg.maxSize > 0) = false := by
    simp only [decide_eq_false_iff_not]
    omega
  constructor
  · rw [h1]
    simp [shouldRotate, hz]
  · rw [h2]
    simp [shouldRotate, hz]

/-- C1 witness: a 3-byte record against `MaxSize = 2` from size 0 rotates. -/
theorem claim1_witness :
    (writeLogV1 c1cfg gzId okOracle "20240101_000000" c1st .INFO c1rec
        ⟨3, none⟩).rotated = true := by
  have h := claim1_rotation_iff c1cfg gzId okOracle "20240101_000000" c1st
    .INFO c1rec ⟨3, none⟩ ⟨0, none⟩ (by decide)
  rw [h.1]
  decide

/-- C9: at the write step (record at or above the minimum level, no
rotation due), a failed or partial write to the buffered handle is
reported and leaves `currentSize` unchanged; a successful write increments
`currentSize` by exactly the number of bytes the writer accepted. -/
theorem claim9_write_accounting (cfg : Config) (gz : List Byte → List Byte)
    (orc : RotOracle) (timeStr : String) (st : LoggerState)
    (level : LogLevel) (record : List Byte) (prim : WriteOutcome)
    (hlvl : cfg.level.toNat ≤ level.toNat)
    (hrot : shouldRotate cfg st.currentSize record.length = false) :
    (∀ e, prim.err = some e →
      (writeLogV1 cfg gz orc timeStr st level record prim).st.currentSize
          = st.currentSize
      ∧ (writeLogV1 cfg gz orc timeStr st level record prim).written = false
      ∧ (writeLogV1 cfg gz orc timeStr st level record prim).reported
          = ["failed to write to log file: " ++ e])
    ∧ (prim.err = none →
      (writeLogV1 cfg gz orc timeStr st level record prim).st.currentSize
          = st.currentSize + (prim.n : Int)
      ∧ (writeLogV1 cfg gz orc timeStr st level record prim).written
          = true) := by
  have hnl : ¬ level.toNat < cfg.level.toNat := Nat.not_lt.mpr hlvl
  constructor
  · intro e he
    simp [writeLogV1, if_neg hnl, hrot, he]
  · intro he
    simp [writeLogV1, if_neg hnl, hrot, he]

/-- C9 witness: a successful 3-byte write advances `currentSize` from 7 to
10. -/
theorem claim9_witness :
    (writeLogV1 c4cfg gzId okOracle "20240101_000000" c9st .INFO c9rec
        ⟨3, none⟩).st.currentSize = c9st.currentSize + 3 ∧
    (writeLogV1 c4cfg gzId okOracle "20240101_000000" c9st .INFO c9rec
        ⟨3, none⟩).written = true := by
  have h := claim9_write_accounting c4cfg gzId okOracle "20240101_000000"
    c9st .INFO c9rec ⟨3, none⟩ (by decide) (by decide)
  exact h.2 rfl

/-- C4 counterexample: with a configured secondary sink whose write fails,
the record reaches the primary buffered writer in full (it is written
first), the failure is reported, but `currentSize` stays 0 instead of
advancing by the record's 5 bytes — refuting the claim that the count is
still incremented. -/
theorem claim4_counterexample :
    (writeLogV2 c4cfg gzId okOracle "20240101_000000"
        { currentSize := 0, fs := [] } .INFO c4rec ⟨5, none⟩
        ⟨0, some "broken pipe"⟩).written = true
    ∧ (writeLogV2 c4cfg gzId okOracle "20240101_000000"
        { currentSize := 0, fs := [] } .INFO c4rec ⟨5, none⟩
        ⟨0, some "broken pipe"⟩).primaryAccepted = 5
    ∧ (writeLogV2 c4cfg gzId okOracle "20240101_000000"
        { currentSize := 0, fs := [] } .INFO c4rec ⟨5, none⟩
        ⟨0, some "broken pipe"⟩).st.currentSize = 0
    ∧ (writeLogV2 c4cfg gzId okOracle "20240101_000000"
        { currentSize := 0, fs := [] } .INFO c4rec ⟨5, none⟩
        ⟨0, some "broken pipe"⟩).reported
        = ["failed to write to log output: broken pipe"] := by
  decide

/-- C4 amended: when the primary buffered writer accepts the whole record
and the configured secondary sink fails, the failure is reported and the
bytes still reach the primary writer, but the write step aborts before the
accounting: `currentSize` is left unchanged. -/
theorem claim4_amended_secondary_failure (cfg : Config)
    (gz : List Byte → List Byte) (orc : RotOracle) (timeStr : String)
    (st : LoggerState) (level : LogLevel) (record : List Byte)
    (sec : WriteOutcome) (e : String)
    (hlvl : cfg.level.toNat ≤ level.toNat)
    (hrot : shouldRotate cfg st.currentSize record.length = false)
    (hsec : secondaryConfigured cfg = true)
    (herr : sec.err = some e) :
    (writeLogV2 cfg gz orc timeStr st level record ⟨record.length, none⟩
        sec).written = true
    ∧ (writeLogV2 cfg gz orc timeStr st level record ⟨record.length, none⟩
        sec).primaryAccepted = record.length
    ∧ (writeLogV2 cfg gz orc timeStr st level record ⟨record.length, none⟩
        sec).st.currentSize = st.currentSize
    ∧ (writeLogV2 cfg gz orc timeStr st level record ⟨record.length, none⟩
        sec).reported = ["failed to write to log output: " ++ e] := by
  have hnl : ¬ level.toNat < cfg.level.toNat := Nat.not_lt.mpr hlvl
  simp only [writeLogV2, if_neg hnl, hrot, Bool.false_eq_true, if_false,
    writeStepV2, hsec, if_true, multiWrite, Nat.lt_irrefl, herr]
  simp [primaryOk]

/-- C4 amended witness: a concrete secondary-sink failure leaves
`currentSize` at 0. -/
theorem claim4_amended_witness :
    (writeLogV2 c4cfg gzId okOracle "20240101_000000"
        { currentSize := 0, fs := [] } .INFO c4rec ⟨c4rec.length, none⟩
        ⟨0, some "broken pipe"⟩).st.currentSize = 0 := by
  have h := claim4_amended_secondary_failure c4cfg gzId okOracle
    "20240101_000000" { currentSize := 0, fs := [] } .INFO c4rec
    ⟨0, some "broken pipe"⟩ "broken pipe" (by decide) (by decide)
    (by decide) rfl
  exact h.2.2.1

/-- C5 counterexample: a write that triggers a rotation whose gzip copy
fails reports the error and discards the triggering record — `written`
is false and nothing reaches the primary writer — refuting the claim that
the record is still appended to the oversized segment. -/
theorem claim5_counterexample :
    (writeLogV1 c5cfg gzId c5orc "20240101_000000" c5st .INFO c4rec
        ⟨5, none⟩).rotated = true
    ∧ (writeLogV1 c5cfg gzId c5orc "20240101_000000" c5st .INFO c4rec
        ⟨5, none⟩).rotateErr = some "failed to compress log file"
    ∧ (writeLogV1 c5cfg gzId c5orc "20240101_000000" c5st .INFO c4rec
        ⟨5, none⟩).written = false
    ∧ (writeLogV1 c5cfg gzId c5orc "20240101_000000" c5st .INFO c4rec
        ⟨5, none⟩).primaryAccepted = 0
    ∧ (writeLogV1 c5cfg gzId c5orc "20240101_000000" c5st .INFO c4rec
        ⟨5, none⟩).st.currentSize = 12 := by
  decide

/-- C5 amended: when the rotation triggered by a write fails, the error is
reported and the original file is reopened as the active segment — its
content intact at the canonical path and `currentSize` reseeded to its
size, so subsequent writes keep appending to the oversized segment — but
the triggering record itself is discarded rather than written. -/
theorem claim5_amended_rotation_failure (cfg : Config)
    (gz : List Byte → List Byte) (orc : RotOracle) (timeStr : String)
    (st : LoggerState) (level : LogLevel) (record : List Byte)
    (prim : WriteOutcome) (e : String) (c : List Byte)
    (hlvl : cfg.level.toNat ≤ level.toNat)
    (hrot : shouldRotate cfg st.currentSize record.length = true)
    (herr : (rotateFile cfg gz orc timeStr st.fs).err = some e)
    (hsrc : fsLookup st.fs (getCurrentLogPath cfg) = some c) :
    (writeLogV1 cfg gz orc timeStr st level record prim).written = false
    ∧ (writeLogV1 cfg gz orc timeStr st level record prim).primaryAccepted
        = 0
    ∧ (writeLogV1 cfg gz orc timeStr st level record prim).reported
        = ["log rotation failed: " ++ e]
    ∧ fsLookup (writeLogV1 cfg gz orc timeStr st level record prim).st.fs
        (getCurrentLogPath cfg) = some c
    ∧ (writeLogV1 cfg gz orc timeStr st level record prim).st.currentSize
        = (c.length : Int) := by
  have hnl : ¬ level.toNat < cfg.level.toNat := Nat.not_lt.mpr hlvl
  have hst := rotateFile_err_st cfg gz orc timeStr st.fs e herr
  have hopen : openLogFile cfg st.fs
      = { currentSize := (c.length : Int), fs := st.fs } := by
    unfold openLogFile
    rw [hsrc]
  simp only [writeLogV1, if_neg hnl, hrot, if_true, herr, hst, hopen]
  simp [hsrc]

/-- C5 amended witness: a concrete failing compress rotation discards the
triggering record. -/
theorem claim5_amended_witness :
    (writeLogV1 c5cfg gzId c5orc "20240101_000000" c5st .INFO c4rec
        ⟨5, none⟩).written = false := by
  have h := claim5_amended_rotation_failure c5cfg gzId c5orc
    "20240101_000000" c5st .INFO c4rec ⟨5, none⟩
    "failed to compress log file" c5content (by decide) (by decide)
    (by decide) (by decide)
  exact h.1

/-- A list contains no element that every member differs from. -/
theorem contains_eq_false_of_ne {α : Type} [BEq α] {l : List α} {a : α}
    (h : ∀ x ∈ l, (a == x) = false) : l.contains a = false := by
  induction l with
  | nil => rfl
  | cons b bs ih =>
    rw [List.contains_cons, Bool.or_eq_false_iff]
    exact ⟨h b (List.mem_cons_self b bs),
      ih fun x hx => h x (List.mem_cons_of_mem b hx)⟩

/-- C6: for every configuration, clock value and directory content,
`cleanup` never deletes the canonical active-file name, whatever its
position in the newest-first order, its age, or the MaxBackups setting. -/
theorem claim6_cleanup_never_deletes_active (cfg : Config) (now : Int)
    (entries : List FileInfo) :
    (cleanupDeleted cfg now entries).contains (cfg.fileName ++ ".log")
      = false := by
  apply contains_eq_false_of_ne
  intro x hx
  obtain ⟨p, hp, hname⟩ := List.mem_map.mp hx
  have hsd := List.of_mem_filter hp
  unfold shouldDeleteAt at hsd
  rw [Bool.and_eq_true] at hsd
  have h1 := hsd.1
  rw [Bool.not_eq_true'] at h1
  unfold isActiveName at h1
  rw [← hname]
  rw [beq_eq_false_iff_ne] at h1 ⊢
  exact fun hcon => h1 hcon.symm

/-- Position lookup for the loop-index pairing: `(i, f)` occurs in
`withIndexFrom j files` iff `i` is at least `j` and `f` sits at offset
`i - j` of the list. -/
theorem mem_withIndexFrom (files : List FileInfo) :
    ∀ (j i : Nat) (f : FileInfo),
      (i, f) ∈ withIndexFrom j files
        ↔ (j ≤ i ∧ files.get? (i - j) = some f) := by
  induction files with
  | nil =>
    intro j i f
    simp [withIndexFrom]
  | cons g rest ih =>
    intro j i f
    simp only [withIndexFrom, List.mem_cons, Prod.mk.injEq]
    constructor
    · rintro (⟨hi, hf⟩ | hmem)
      · subst hi
        subst hf
        simp
      · obtain ⟨hle, hget⟩ := (ih (j + 1) i f).mp hmem
        refine ⟨by omega, ?_⟩
        have hij : i - j = (i - (j + 1)) + 1 := by omega
        rw [hij, List.get?_cons_succ]
        exact hget
    · rintro ⟨hle, hget⟩
      by_cases hij : i = j
      · subst hij
        left
        have h0 : i - i = 0 := by omega
        rw [h0, List.get?_cons_zero] at hget
        exact ⟨rfl, (Option.some.inj hget).symm⟩
      · right
        refine (ih (j + 1) i f).mpr ⟨by omega, ?_⟩
        have hsz : i - j = (i - (j + 1)) + 1 := by omega
        rw [hsz, List.get?_cons_succ] at hget
        exact hget

/-- C3 amended: the index `i` of the MaxBackups test is the file's 0-based
position in the full newest-first sorted list — the skipped active file
included, so it consumes a position in the count: a non-active file whose
age does not trigger deletion is marked iff `MaxBackups > 0` and its full
position `i` satisfies `i ≥ MaxBackups`. -/
theorem claim3_amended_full_index (cfg : Config) (now : Int)
    (entries : List FileInfo) (i : Nat) (f : FileInfo)
    (hact : isActiveName cfg f.name = false)
    (hage : (decide (cfg.maxAge > 0) &&
        decide (now - f.modTime > cfg.maxAge)) = false) :
    (i, f) ∈ cleanupMarked cfg now
        (sortByModTimeDesc (getLogFiles cfg entries))
      ↔ ((sortByModTimeDesc (getLogFiles cfg entries)).get? i = some f
          ∧ 0 < cfg.maxBackups ∧ (cfg.maxBackups : Int) ≤ (i : Int)) := by
  unfold cleanupMarked
  constructor
  · intro h
    have hmem := List.mem_of_mem_filter h
    have hsd := List.of_mem_filter h
    have hget := (mem_withIndexFrom _ 0 i f).mp hmem
    simp only [Nat.sub_zero] at hget
    simp only [shouldDeleteAt, hact, hage, Bool.not_false, Bool.true_and,
      Bool.false_or, Bool.and_eq_true, decide_eq_true_eq] at hsd
    exact ⟨hget.2, by omega, by omega⟩
  · rintro ⟨hget, hb, hi⟩
    apply List.mem_filter.mpr
    refine ⟨(mem_withIndexFrom _ 0 i f).mpr ⟨Nat.zero_le _, ?_⟩, ?_⟩
    · simpa using hget
    · simp only [shouldDeleteAt, hact, hage, Bool.not_false, Bool.true_and,
        Bool.false_or, Bool.and_eq_true, decide_eq_true_eq]
      exact ⟨by omega, by omega⟩

/-- C3 amended witness: with the active file newest and `MaxBackups = 2`,
the second backup sits at full position 2 and is marked. -/
theorem claim3_amended_witness :
    (2, c3oldest)
      ∈ cleanupMarked c3cfg 100
          (sortByModTimeDesc (getLogFiles c3cfg c3entries)) := by
  have h := claim3_amended_full_index c3cfg 100 c3entries 2 c3oldest
    (by decide) (by decide)
  exact h.mpr ⟨by decide, by decide, by decide⟩

/-- C3 counterexample: the same directory run through the code deletes the
second backup — only one backup survives although `MaxBackups = 2` and
only two backups exist — while the claim's indexing (0-based among
non-active files only) deletes nothing. -/
theorem claim3_counterexample :
    cleanupDeleted c3cfg 100 c3entries = ["app_20240101_000000.log"]
    ∧ cleanupDeletedSpecNonActive c3cfg 100 c3entries = [] := by
  decide

/-- C2 (code bug): the second iteration's `Close` path takes no flush and
no sync step at all — `l.out` is always the `io.MultiWriter` result, which
implements no `io.Closer`, so even the conditional close of the output
writer never fires — and the first iteration's `Close` returns `nil` even
when the flush or sync it performed failed, reporting only the file
handle's close error. -/
theorem claim2_close_code_bug :
    (∀ (cfg : Config) (hasFile : Bool),
      (closeV2Steps (openOutWriter cfg) hasFile).contains .flushBuffered
          = false
      ∧ (closeV2Steps (openOutWriter cfg) hasFile).contains .syncFile
          = false
      ∧ (closeV2Steps (openOutWriter cfg) hasFile).contains .closeOut
          = false)
    ∧ (∀ flushErr syncErr : Option String,
        closeV1Ret true flushErr syncErr none = none) := by
  constructor
  · intro cfg hasFile
    cases hasFile <;>
      simp [closeV2Steps, openOutWriter, OutWriter.isCloser, List.contains]
  · intro flushErr syncErr
    rfl

/-- C10: `NewLogger` is total in its configuration argument: a nil
configuration is substituted by the default configuration (the two calls
build the very same result), and construction fails exactly when directory
creation or the initial file open fails. -/
theorem claim10_newlogger_nil_total (mkdirFails openFails : Bool)
    (fs : FS) :
    NewLogger none mkdirFails openFails fs
        = NewLogger (some DefaultConfig) mkdirFails openFails fs
    ∧ newLoggerOk (NewLogger none mkdirFails openFails fs)
        = (!mkdirFails && !openFails) := by
  cases mkdirFails <;> cases openFails <;> exact ⟨rfl, rfl⟩

end Logr
